import Mathlib

/-!
# dprun: address chunks, option parsing, the lobby message dispatcher

A shallow embedding of `src/main.c`.  Functions of the C file keep their
names.  Values that come from headers that are not part of the file (Windows
SDK constants, the DirectPlay structures, the session runtime) are fields of
`Platform`, so every statement holds for whatever the headers define.

Conventions
* a C string is the list of its bytes before the terminating zero byte; its
  memory image is that list followed by `0`;
* undefined behaviour of the C program (a null pointer used in pointer
  arithmetic, an access outside a buffer, a read of freed memory) is the
  `Except.error` outcome carrying a `Fault`;
* allocation (`calloc`) is taken to succeed.
-/

namespace Dprun

/-! ## Machine-level vocabulary -/

/-- A Windows status code: a signed 32-bit value, negative when it reports a failure. -/
abbrev HRESULT := Int

/-- The SDK test `SUCCEEDED(hr)`, i.e. `hr >= 0`. -/
def SUCCEEDED (hr : HRESULT) : Bool := decide (0 ≤ hr)

/-- The SDK test `FAILED(hr)`, i.e. `hr < 0`. -/
def FAILED (hr : HRESULT) : Bool := decide (hr < 0)

/-- Bytes of a C string, terminator excluded. -/
abbrev CStr := List Nat

/-- A 128-bit identifier, as its 16-byte memory image. -/
abbrev GUID := List Nat

/-- Ways in which the C program leaves defined behaviour. -/
inductive Fault where
  | null_pointer
  | out_of_bounds
  | use_after_free
  | double_free
  deriving DecidableEq, Repr

/-- Bytes of a string literal. -/
def cstr (s : String) : CStr := s.toList.map Char.toNat

/-- The string stored at the start of a memory region: the bytes before the first zero. -/
def c_str : List Nat → CStr
  | [] => []
  | b :: bs => if b = 0 then [] else b :: c_str bs

/-- C `strlen` of the string that starts the region. -/
def strlen (mem : List Nat) : Nat := (c_str mem).length

/-- C `strchr(s, c)`: offset of the first `c` in the string that starts the region,
`none` for the null pointer returned when there is none. -/
def strchr : List Nat → Nat → Option Nat
  | [], _ => none
  | b :: bs, c =>
    if b = c then some 0
    else if b = 0 then none
    else (strchr bs c).map (· + 1)

/-- C `strcmp` on two strings: zero exactly when they are equal. -/
def strcmp : CStr → CStr → Int
  | [], [] => 0
  | [], _ :: _ => -1
  | _ :: _, [] => 1
  | a :: as, b :: bs => if a = b then strcmp as bs else (a : Int) - (b : Int)

/-- Read of one byte at offset `i` of a region. -/
def load (mem : List Nat) (i : Nat) : Except Fault Nat :=
  match mem[i]? with
  | some b => .ok b
  | none => .error .out_of_bounds

/-- Write of one byte at offset `i` of a region. -/
def store (mem : List Nat) (i : Nat) (v : Nat) : Except Fault (List Nat) :=
  if i < mem.length then .ok (mem.set i v) else .error .out_of_bounds

/-- C `memcpy(dst, src, n)`: both regions must hold at least `n` bytes. -/
def memcpy (dst src : List Nat) (n : Nat) : Except Fault (List Nat) :=
  if n ≤ dst.length ∧ n ≤ src.length then .ok (src.take n ++ dst.drop n)
  else .error .out_of_bounds

/-- C `calloc(1, n)`: `n` zero bytes. -/
def calloc (n : Nat) : List Nat := List.replicate n 0

/-- Memory image of a 32-bit `DWORD` on the little-endian targets of the program. -/
def dword_bytes (n : Nat) : List Nat :=
  [n % 256, n / 256 % 256, n / 65536 % 256, n / 16777216 % 256]

/-- The unsigned 32-bit value held by four little-endian bytes. -/
def dword_of_bytes : List Nat → Nat
  | [b0, b1, b2, b3] => b0 + 256 * b1 + 65536 * b2 + 16777216 * b3
  | _ => 0

/-- C `isspace` in the "C" locale. -/
def isspace (c : Nat) : Bool := c == 32 || (decide (9 ≤ c) && decide (c ≤ 13))

/-- C `isdigit`. -/
def isdigit (c : Nat) : Bool := decide (48 ≤ c) && decide (c ≤ 57)

/-- Digit loop of `atoi`: accumulates decimal digits until the first other byte. -/
def atoi_digits : List Nat → Int → Int
  | [], acc => acc
  | c :: cs, acc => if isdigit c then atoi_digits cs (acc * 10 + ((c : Int) - 48)) else acc

/-- Leading white space skipped by `atoi`. -/
def atoi_skip : List Nat → List Nat
  | [] => []
  | c :: cs => if isspace c then atoi_skip cs else c :: cs

/-- C `atoi` on a string: optional white space, optional sign, decimal digits; `0` when
there is no digit.  (A value outside the `int` range is undefined in C; the result is
kept unbounded here and wrapped where it is stored in a `DWORD`.) -/
def atoi (s : CStr) : Int :=
  match atoi_skip s with
  | 45 :: cs => - atoi_digits cs 0
  | 43 :: cs => atoi_digits cs 0
  | cs => atoi_digits cs 0

/-- Conversion of an `int` to `DWORD`: reduction modulo `2^32`. -/
def to_dword (i : Int) : Nat := (i % 4294967296).toNat

/-! ## Data model -/

/-- One address element: data type identifier, recorded size, payload bytes. -/
structure DPCOMPOUNDADDRESSELEMENT where
  guidDataType : GUID
  dwDataSize : Nat
  lpData : List Nat
  deriving DecidableEq, Repr

/-- The session descriptor filled by option parsing (`player_name = none` is the
C null pointer; `address` is the compound address, in insertion order). -/
structure session_desc where
  is_host : Bool
  session_id : GUID
  application : GUID
  service_provider : GUID
  player_name : Option CStr
  address : List DPCOMPOUNDADDRESSELEMENT
  deriving DecidableEq, Repr

/-- An inbound lobby message: flags and raw data (`data_size` is the length of `data`). -/
structure dplobbymsg where
  flags : Nat
  data : List Nat
  deriving DecidableEq, Repr

/-- Everything `main.c` takes from headers and libraries outside the file. -/
structure Platform where
  DP_OK : HRESULT
  S_OK : HRESULT
  DPERR_OUTOFMEMORY : HRESULT
  DPERR_UNKNOWNMESSAGE : HRESULT
  GUID_NULL : GUID
  DPAID_TotalSize : GUID
  DPAID_ServiceProvider : GUID
  DPAID_LobbyProvider : GUID
  DPAID_Phone : GUID
  DPAID_PhoneW : GUID
  DPAID_Modem : GUID
  DPAID_ModemW : GUID
  DPAID_INet : GUID
  DPAID_INetW : GUID
  DPAID_INetPort : GUID
  DPAID_ComPort : GUID
  DPSPGUID_IPX : GUID
  DPSPGUID_TCPIP : GUID
  DPSPGUID_SERIAL : GUID
  DPSPGUID_MODEM : GUID
  DPSPGUID_DPRUN : GUID
  DPLMSG_STANDARD : Nat
  DPLSYS_APPTERMINATED : Nat
  DPLSYS_NEWSESSIONHOST : Nat
  DPLSYS_CONNECTIONSETTINGSREAD : Nat
  DPLSYS_DPLAYCONNECTFAILED : Nat
  DPLSYS_DPLAYCONNECTSUCCEEDED : Nat
  DPLSYS_GETPROPERTY : Nat
  DPLSYS_GETPROPERTYRESPONSE : Nat
  /-- Size of a data pointer in bytes, `sizeof(void*)`. -/
  sizeof_pointer : Nat
  /-- The wide-character buffer left by `MultiByteToWideChar(CP_ACP, 0, input, -1, str, n)`. -/
  MultiByteToWideChar : CStr → Nat → List Nat
  /-- Result of `IIDFromString(str, out)`: status, and the content of `*out` afterwards,
  given the buffer `str` and the content of `*out` before the call. -/
  IIDFromString : List Nat → GUID → HRESULT × GUID
  /-- Identifier produced by `CoCreateGuid`. -/
  CoCreateGuid : GUID
  /-- Status returned by `dpsp_register()`. -/
  dpsp_register : HRESULT
  /-- Status returned by `dpsp_unregister()`. -/
  dpsp_unregister : HRESULT
  /-- Status returned by `session_launch(&desc)`. -/
  session_launch : session_desc → HRESULT
  /-- Text returned by `get_error_message(result)`, `none` for the null pointer. -/
  get_error_message : HRESULT → Option CStr

/-! ## Address chunks -/

/-- Source `parse_guid`: converts to a 39-element wide buffer, forces a terminator at
index 38 and hands the buffer to `IIDFromString`. -/
def parse_guid (P : Platform) (input : CStr) (out_guid : GUID) : HRESULT × GUID :=
  let str := P.MultiByteToWideChar input 39
  let str := str.set 38 0
  P.IIDFromString str out_guid

/-- Modelled from the spec: `dpaddrelement_create` (declared in `session.h`, defined
outside `main.c`) builds an element that records the data type, the payload and the
byte count exactly as supplied; with allocation succeeding it returns `DP_OK`. -/
def dpaddrelement_create (P : Platform) (data_type : GUID) (data : List Nat) (data_size : Nat) :
    HRESULT × Option DPCOMPOUNDADDRESSELEMENT :=
  (P.DP_OK, some { guidDataType := data_type, dwDataSize := data_size, lpData := data })

/-- Lines 97-108 of `parse_address_chunk`: the alias table for the key, with
`parse_guid` as the last resort.  Returns `result` and `data_type` (the local is
uninitialised before `parse_guid` writes it; `GUID_NULL` stands for that content). -/
def address_data_type (P : Platform) (guid_str : CStr) : HRESULT × GUID :=
  if strcmp guid_str (cstr "TotalSize") == 0 then (P.DP_OK, P.DPAID_TotalSize)
  else if strcmp guid_str (cstr "ServiceProvider") == 0 then (P.DP_OK, P.DPAID_ServiceProvider)
  else if strcmp guid_str (cstr "LobbyProvider") == 0 then (P.DP_OK, P.DPAID_LobbyProvider)
  else if strcmp guid_str (cstr "Phone") == 0 then (P.DP_OK, P.DPAID_Phone)
  else if strcmp guid_str (cstr "PhoneW") == 0 then (P.DP_OK, P.DPAID_PhoneW)
  else if strcmp guid_str (cstr "Modem") == 0 then (P.DP_OK, P.DPAID_Modem)
  else if strcmp guid_str (cstr "ModemW") == 0 then (P.DP_OK, P.DPAID_ModemW)
  else if strcmp guid_str (cstr "INet") == 0 then (P.DP_OK, P.DPAID_INet)
  else if strcmp guid_str (cstr "INetW") == 0 then (P.DP_OK, P.DPAID_INetW)
  else if strcmp guid_str (cstr "INetPort") == 0 then (P.DP_OK, P.DPAID_INetPort)
  else if strcmp guid_str (cstr "ComPort") == 0 then (P.DP_OK, P.DPAID_ComPort)
  else parse_guid P guid_str P.GUID_NULL

/-- Lines 114-124 of `parse_address_chunk`: the payload and its size, from the memory
image `mem` of the chunk and the offset `eq` of the separator. -/
def address_payload (mem : List Nat) (eq : Nat) : Except Fault (List Nat × Nat) := do
  let c1 ← load mem (eq + 1)
  let is_int ← (if c1 = 105 then (do let c2 ← load mem (eq + 2); pure (decide (c2 = 58)))
    else pure false : Except Fault Bool)
  if is_int then
    -- integer
    let data_size := 4
    let data := calloc 4
    let num := to_dword (atoi (c_str (mem.drop (eq + 3))))
    let data ← memcpy data (dword_bytes num) 4
    pure (data, data_size)
  else
    let data_size := strlen (mem.drop eq)
    let data := calloc data_size
    let data ← memcpy data (mem.drop (eq + 1)) (data_size - 1)
    pure (data, data_size)

/-- Source `parse_address_chunk`: the returned status and the element written to
`*out_address`, if any. -/
def parse_address_chunk (P : Platform) (input : CStr) :
    Except Fault (HRESULT × Option DPCOMPOUNDADDRESSELEMENT) :=
  let mem := input ++ [0]
  match strchr mem 61 with
  | none => .error .null_pointer
  | some eq =>
    if eq > 55 then .ok (P.DPERR_OUTOFMEMORY, none)
    else do
      let guid_str ← memcpy (calloc 60) mem eq
      let guid_str ← store guid_str eq 0
      let (result, data_type) := address_data_type P (c_str guid_str)
      let (data, data_size) ← address_payload mem eq
      if SUCCEEDED result then pure (dpaddrelement_create P data_type data data_size)
      else pure (result, none)

/-! ## A sample platform

Concrete values for the header constants and library calls, used to run the
definitions on concrete inputs.  Status codes and message constants are set as in the
DirectX SDK headers for 32-bit Windows; the identifiers are distinct stand-ins. -/

/-- Value of a hexadecimal digit. -/
def hex_val (c : Nat) : Option Nat :=
  if 48 ≤ c ∧ c ≤ 57 then some (c - 48)
  else if 65 ≤ c ∧ c ≤ 70 then some (c - 55)
  else if 97 ≤ c ∧ c ≤ 102 then some (c - 87)
  else none

/-- Bytes written as pairs of hexadecimal digits. -/
def hex_bytes : List Nat → Option (List Nat)
  | [] => some []
  | [_] => none
  | hi :: lo :: rest =>
    match hex_val hi, hex_val lo, hex_bytes rest with
    | some h, some l, some bs => some ((16 * h + l) :: bs)
    | _, _, _ => none

/-- Sample `IIDFromString`: accepts exactly the 38-character brace-and-dash form and
leaves `*out` untouched otherwise, returning `E_INVALIDARG`. -/
def sample_IIDFromString (str : List Nat) (out : GUID) : HRESULT × GUID :=
  let s := c_str str
  if s.length = 38 ∧ s[0]? = some 123 ∧ s[9]? = some 45 ∧ s[14]? = some 45 ∧
      s[19]? = some 45 ∧ s[24]? = some 45 ∧ s[37]? = some 125 then
    match hex_bytes ((s.drop 1).take 8), hex_bytes ((s.drop 10).take 4),
        hex_bytes ((s.drop 15).take 4), hex_bytes ((s.drop 20).take 4),
        hex_bytes ((s.drop 25).take 12) with
    | some d1, some d2, some d3, some d4, some d5 =>
      (0, d1.reverse ++ d2.reverse ++ d3.reverse ++ d4 ++ d5)
    | _, _, _, _, _ => (-2147024809, out)
  else (-2147024809, out)

/-- Sample `MultiByteToWideChar`: one wide character per byte, terminator included,
cut to the buffer size and padded with zeros. -/
def sample_MultiByteToWideChar (input : CStr) (n : Nat) : List Nat :=
  (input ++ 0 :: List.replicate n 0).take n

/-- Stand-in identifier number `k`. -/
def sample_guid (k : Nat) : GUID := k :: List.replicate 15 0

/-- The sample platform. -/
def sample : Platform where
  DP_OK := 0
  S_OK := 0
  DPERR_OUTOFMEMORY := -2147024882
  DPERR_UNKNOWNMESSAGE := -2005466766
  GUID_NULL := List.replicate 16 0
  DPAID_TotalSize := sample_guid 1
  DPAID_ServiceProvider := sample_guid 2
  DPAID_LobbyProvider := sample_guid 3
  DPAID_Phone := sample_guid 4
  DPAID_PhoneW := sample_guid 5
  DPAID_Modem := sample_guid 6
  DPAID_ModemW := sample_guid 7
  DPAID_INet := sample_guid 8
  DPAID_INetW := sample_guid 9
  DPAID_INetPort := sample_guid 10
  DPAID_ComPort := sample_guid 11
  DPSPGUID_IPX := sample_guid 21
  DPSPGUID_TCPIP := sample_guid 22
  DPSPGUID_SERIAL := sample_guid 23
  DPSPGUID_MODEM := sample_guid 24
  DPSPGUID_DPRUN := sample_guid 25
  DPLMSG_STANDARD := 2
  DPLSYS_APPTERMINATED := 4
  DPLSYS_NEWSESSIONHOST := 9
  DPLSYS_CONNECTIONSETTINGSREAD := 1
  DPLSYS_DPLAYCONNECTFAILED := 2
  DPLSYS_DPLAYCONNECTSUCCEEDED := 3
  DPLSYS_GETPROPERTY := 7
  DPLSYS_GETPROPERTYRESPONSE := 8
  sizeof_pointer := 4
  MultiByteToWideChar := sample_MultiByteToWideChar
  IIDFromString := sample_IIDFromString
  CoCreateGuid := sample_guid 99
  dpsp_register := 0
  dpsp_unregister := 0
  session_launch := fun _ => 0
  get_error_message := fun _ => none

/-! ## Effects: standard output, runtime calls, the inbound message -/

/-- Observable actions, in program order.  `printf` records the format string only: the
values printed never influence control flow. -/
inductive Event where
  | printf (format : String)
  /-- A read through the `message` pointer (the message structure or its data). -/
  | message_read
  /-- The call `dplobbymsg_free(message)`. -/
  | dplobbymsg_free
  /-- The call `IDirectPlayLobby_SendLobbyMessage(lobby, flags, app_id, data, size)`, with
  the memory image found at `data`. -/
  | SendLobbyMessage (flags app_id : Nat) (data : List Nat) (size : Nat)
  | dpsp_register
  | dpsp_unregister
  | session_launch (desc : session_desc)
  | session_process_messages (desc : session_desc)
  | StringFromIID (guid : GUID)
  | fwrite (file : String)
  deriving DecidableEq, Repr

/-- The bytes a `SendLobbyMessage` call hands over: the first `size` bytes at `data`. -/
def Event.payload : Event → Option (List Nat)
  | .SendLobbyMessage _ _ data size => some (data.take size)
  | _ => none

/-- Whether the event is a `SendLobbyMessage` call. -/
def Event.is_send : Event → Bool
  | .SendLobbyMessage _ _ _ _ => true
  | _ => false

/-- State of one dispatcher call: whether the inbound message has been released, and
the actions so far. -/
structure Run where
  freed : Bool
  trace : List Event
  deriving DecidableEq, Repr

/-- State at entry of the dispatcher: the message is allocated, nothing has happened. -/
def Run.entry : Run := { freed := false, trace := [] }

/-- Computations of the dispatcher: they update a `Run` or stop on a `Fault`. -/
def Exec (α : Type) : Type := Run → Except Fault (α × Run)

/-- Result without effect. -/
def Exec.pure {α : Type} (a : α) : Exec α := fun s => .ok (a, s)

/-- Sequencing; a fault ends the computation. -/
def Exec.bind {α β : Type} (x : Exec α) (f : α → Exec β) : Exec β := fun s =>
  match x s with
  | .ok (a, s') => f a s'
  | .error e => .error e

instance : Monad Exec where
  pure := Exec.pure
  bind := Exec.bind

/-- Appends one action to the trace. -/
def emit (e : Event) : Exec Unit := fun s => .ok ((), { s with trace := s.trace ++ [e] })

/-- A read through `message`: a fault once the message has been released, otherwise the
value read (itself subject to the bounds of the data). -/
def deref {α : Type} (x : Except Fault α) : Exec α := fun s =>
  if s.freed then .error .use_after_free
  else match x with
    | .ok a => .ok (a, { s with trace := s.trace ++ [.message_read] })
    | .error e => .error e

/-- Modelled from the spec: `dplobbymsg_free` (declared in `session.h`) releases the
message and its data; releasing twice is a fault. -/
def dplobbymsg_free : Exec Unit := fun s =>
  if s.freed then .error .double_free
  else .ok ((), { freed := true, trace := s.trace ++ [.dplobbymsg_free] })

/-- Read of `n` bytes at offset `off`. -/
def load_bytes (mem : List Nat) (off n : Nat) : Except Fault (List Nat) :=
  if off + n ≤ mem.length then .ok ((mem.drop off).take n) else .error .out_of_bounds

/-- Read of a `DWORD` at offset `off`. -/
def load_dword (mem : List Nat) (off : Nat) : Except Fault Nat :=
  match load_bytes mem off 4 with
  | .ok bs => .ok (dword_of_bytes bs)
  | .error e => .error e

/-- The SDK structure `DPLMSG_GETPROPERTYRESPONSE`. -/
structure DPLMSG_GETPROPERTYRESPONSE where
  dwType : Nat
  dwRequestID : Nat
  guidPlayer : GUID
  guidPropertyTag : GUID
  hr : HRESULT
  dwDataSize : Nat
  dwPropertyData0 : Nat
  deriving DecidableEq, Repr

/-- Memory image of the response, fields in declaration order: 4 + 4 + 16 + 16 + 4 + 4 + 4
bytes. -/
def DPLMSG_GETPROPERTYRESPONSE.image (r : DPLMSG_GETPROPERTYRESPONSE) : List Nat :=
  dword_bytes r.dwType ++ dword_bytes r.dwRequestID ++ r.guidPlayer ++ r.guidPropertyTag
    ++ dword_bytes (to_dword r.hr) ++ dword_bytes r.dwDataSize ++ dword_bytes r.dwPropertyData0

/-! ## The lobby message dispatcher -/

/-- The loop of `onmessage` that prints the data byte by byte, over the indices `is`. -/
def hex_dump (message : dplobbymsg) : List Nat → Exec Unit
  | [] => pure ()
  | i :: is => do
    let _ ← deref (load message.data i)
    emit (.printf "%02X")
    hex_dump message is

/-- The `DPLSYS_GETPROPERTY` case of `onmessage`: builds the response from the request
found in the message data (`dwRequestID` at offset 4, `guidPlayer` at 8, `guidPropertyTag`
at 24) and sends it with `sizeof(get_prop_response)`, the size of the pointer. -/
def onmessage_get_property (P : Platform) (app_id : Nat) (message : dplobbymsg) : Exec Unit := do
  let dwRequestID ← deref (load_dword message.data 4)
  let guidPlayer ← deref (load_bytes message.data 8 16)
  let guidPropertyTag ← deref (load_bytes message.data 24 16)
  let get_prop_response : DPLMSG_GETPROPERTYRESPONSE :=
    { dwType := P.DPLSYS_GETPROPERTYRESPONSE
      dwRequestID := dwRequestID
      guidPlayer := guidPlayer
      guidPropertyTag := guidPropertyTag
      hr := P.DPERR_UNKNOWNMESSAGE
      dwDataSize := 0
      dwPropertyData0 := 0 }
  emit (.SendLobbyMessage 0 app_id get_prop_response.image P.sizeof_pointer)

/-- The cases of the `switch` in `onmessage` that end in `break`: four cases that only
print, the `DPLSYS_GETPROPERTY` case, and `default`, taken when no case label matches. -/
def onmessage_switch (P : Platform) (app_id : Nat) (message : dplobbymsg) (dwType : Nat) :
    Exec Unit :=
  if dwType = P.DPLSYS_NEWSESSIONHOST then
    emit (.printf "received NEWSESSIONHOST message\n")
  else if dwType = P.DPLSYS_CONNECTIONSETTINGSREAD then
    emit (.printf "received CONNECTIONSETTINGSREAD message\n")
  else if dwType = P.DPLSYS_DPLAYCONNECTFAILED then
    emit (.printf "received CONNECTFAILED message\n")
  else if dwType = P.DPLSYS_DPLAYCONNECTSUCCEEDED then
    emit (.printf "received CONNECTSUCCEEDED message!\n")
  else if dwType = P.DPLSYS_GETPROPERTY then
    onmessage_get_property P app_id message
  else do
    let _ ← deref (load_dword message.data 0)
    emit (.printf "received unknown message: %ld\n")

/-- Source `onmessage`: `true` to go on receiving, `false` to stop. -/
def onmessage (P : Platform) (app_id : Nat) (message : dplobbymsg) : Exec Bool := do
  let _ ← deref (.ok message.flags)
  emit (.printf "Receiving message... %ld\n")
  hex_dump message (List.range message.data.length)
  emit (.printf "\n")
  let flags ← deref (.ok message.flags)
  if flags = P.DPLMSG_STANDARD then do
    dplobbymsg_free
    pure true
  else do
    let dwType ← deref (load_dword message.data 0)
    if dwType = P.DPLSYS_APPTERMINATED then do
      emit (.printf "received APPTERMINATED message\n")
      dplobbymsg_free
      pure false
    else do
      onmessage_switch P app_id message dwType
      dplobbymsg_free
      pure true

/-- Payloads of the `SendLobbyMessage` calls of a trace, in order. -/
def sent (trace : List Event) : List (List Nat) := trace.filterMap Event.payload

/-! ## Option parsing and `main` -/

/-- Source `help_text`. -/
def help_text : String :=
  "dprun <--host|--join> [options]\n" ++
  "\n" ++
  "-H, --host [session]\n" ++
  "    Host a DirectPlay session.\n" ++
  "    [session] is optional, and can contain a GUID that will be used as the session instance ID.\n" ++
  "    If omitted, a random GUID is generated.\n" ++
  "-J, --join [session]\n" ++
  "    Join a DirectPlay session.\n" ++
  "    [session] is the GUID for the session.\n" ++
  "\n" ++
  "Options:\n" ++
  "  -p, --player [name]\n" ++
  "      The name of the local player (required).\n" ++
  "  -s, --service-provider [guid]\n" ++
  "      The GUID of the service provider to use (required).\n" ++
  "      This field also supports constant values: TCPIP, IPX, SERIAL, MODEM, DPRUN\n" ++
  "  -A, --application [guid]\n" ++
  "      The GUID of the application to start (required).\n" ++
  "\n" ++
  "  -a, --address [key]=[value]\n" ++
  "      Add an address part. This flag can appear more than once.\n" ++
  "      The [value] is the string value of the address part.\n" ++
  "      To specify a numeric value, use \"i:12345\".\n" ++
  "      To specify a binary value, use \"b:[hex encoded value]\", for example \"b:DEADBEEF\".\n" ++
  "      The [key] field is the GUID for the address data type. It also supports constant values:\n" ++
  "          TotalSize, ServiceProvider, LobbyProvider, Phone, PhoneW,\n" ++
  "          Modem, ModemW, INet, INetW, INetPort, ComPort\n" ++
  "  -n, --session-name [name]\n" ++
  "      The name of the session to host or join (optional).\n" ++
  "  -q, --session-password [password]\n" ++
  "      The password for the session to host or join (optional).\n" ++
  "\n" ++
  "GUIDs passed to dprun must be formatted like below, including braces and dashes:\n" ++
  "    \x7bxxxxxxxx-xxxx-xxxx-xxxx-xxxxxxxxxxxx\x7d\n" ++
  "    \x7b685BC400-9D2C-11cf-A9CD-00AA006886E3\x7d\n"

/-- Modelled from the spec: `session_create` (declared in `session.h`) returns the
descriptor with its defaults, null identifiers and an empty address; the player name is
the null pointer. -/
def session_create (P : Platform) : session_desc :=
  { is_host := false
    session_id := P.GUID_NULL
    application := P.GUID_NULL
    service_provider := P.GUID_NULL
    player_name := none
    address := [] }

/-- Modelled from the spec: `dpaddress_add` (declared in `session.h`) appends the element
to the compound address of the descriptor. -/
def dpaddress_add (desc : session_desc) (el : DPCOMPOUNDADDRESSELEMENT) : session_desc :=
  { desc with address := desc.address ++ [el] }

/-- Modelled from the spec: `dpaddress_create_element` (declared in `session.h`) builds an
element from a data type and `data_size` bytes of data and appends it. -/
def dpaddress_create_element (desc : session_desc) (data_type : GUID) (data : List Nat)
    (data_size : Nat) : session_desc :=
  dpaddress_add desc { guidDataType := data_type, dwDataSize := data_size, lpData := data }

/-- The alias chain of the `s` case of `parse_cli_args`: the new content of
`desc->service_provider`. -/
def service_provider_of (P : Platform) (optarg : CStr) (current : GUID) : GUID :=
  if strcmp optarg (cstr "IPX") == 0 then P.DPSPGUID_IPX
  else if strcmp optarg (cstr "TCPIP") == 0 then P.DPSPGUID_TCPIP
  else if strcmp optarg (cstr "SERIAL") == 0 then P.DPSPGUID_SERIAL
  else if strcmp optarg (cstr "MODEM") == 0 then P.DPSPGUID_MODEM
  else if strcmp optarg (cstr "DPRUN") == 0 then P.DPSPGUID_DPRUN
  else (parse_guid P optarg current).2

/-- Source `parse_cli_args`, over the successive results of `getopt_long` (option
character and `optarg`; the end of the list is the result `-1`).  Returns the status,
the descriptor as left by the options processed, and what was printed. -/
def parse_cli_args (P : Platform) :
    List (Int × Option CStr) → session_desc → Except Fault (HRESULT × session_desc × List Event)
  | [], desc => .ok (P.DP_OK, desc, [])
  | (opt, optarg) :: rest, desc =>
    if opt = -1 then
      -- Done.
      .ok (P.DP_OK, desc, [])
    else if opt = 74 ∨ opt = 72 then
      .ok (1, desc, [.printf "--join and --host may only appear as the first argument\n"])
    else if opt = 112 then
      match optarg with
      | none => .ok (1, desc, [])
      | some arg => parse_cli_args P rest { desc with player_name := some arg }
    else if opt = 65 then
      match optarg with
      | none => .ok (1, desc, [])
      | some arg =>
        parse_cli_args P rest { desc with application := (parse_guid P arg desc.application).2 }
    else if opt = 115 then
      match optarg with
      | none => .ok (1, desc, [])
      | some arg =>
        let desc := { desc with
          service_provider := service_provider_of P arg desc.service_provider }
        parse_cli_args P rest
          (dpaddress_create_element desc P.DPAID_ServiceProvider desc.service_provider 16)
    else if opt = 97 then
      match optarg with
      | none => .ok (1, desc, [])
      | some arg =>
        match parse_address_chunk P arg with
        | .error f => .error f
        | .ok (result, addr_element) =>
          if FAILED result then
            .ok (result, desc, [.printf "Could not parse address chunk \x27%s\x27: %s\n"])
          else
            match addr_element with
            | some el => parse_cli_args P rest (dpaddress_add desc el)
            | none => .error .null_pointer
    else
      .ok (1, desc, [.printf "Unknown argument \x27%s\x27\n"])

/-- Source `print_address`: one line of output per element. -/
def print_address (address : List DPCOMPOUNDADDRESSELEMENT) : List Event :=
  .printf "address:\n" ::
    address.flatMap (fun el => [.StringFromIID el.guidDataType, .printf "  %S - %s\n"])

/-- The calls `dpsp_unregister()` made on the way out of `main` when the provider of the
tool was registered. -/
def main_unregister (P : Platform) (use_dprun_sp : Bool) : List Event :=
  if use_dprun_sp then
    .dpsp_unregister ::
      (if FAILED P.dpsp_unregister then
        [.printf "Could not unregister DPRun service provider: %s\n"]
      else [])
  else []

/-- Lines 272-339 of `main`: the pre-launch check of the descriptor, then registration of
the provider, launch and message processing.  Returns the exit status and the actions. -/
def main_launch (P : Platform) (desc : session_desc) : Int × List Event :=
  if desc.player_name = none then (1, [.printf "Missing --player\n"])
  else if desc.application = P.GUID_NULL then (1, [.printf "Missing --application\n"])
  else if desc.service_provider = P.GUID_NULL then (1, [.printf "Missing --service-provider\n"])
  else
    let use_dprun_sp : Bool := decide (desc.service_provider = P.DPSPGUID_DPRUN)
    if use_dprun_sp ∧ FAILED P.dpsp_register = true then
      (1, [.dpsp_register, .printf "Could not register DPRun service provider: %s\n"])
    else
      let before : List Event :=
        (if use_dprun_sp then [.dpsp_register] else []) ++ print_address desc.address
          ++ [.session_launch desc]
      if FAILED (P.session_launch desc) then
        (1, before ++ [.printf "Fail: %ld\n"]
          ++ (if (P.get_error_message (P.session_launch desc)).isSome then [.printf "%s\n"]
            else [])
          ++ main_unregister P use_dprun_sp)
      else
        (0, before ++
          [.StringFromIID desc.session_id, .printf "launched session %s\n",
           .fwrite "dbg_sessid.txt", .session_process_messages desc, .printf "Success!\n"]
          ++ main_unregister P use_dprun_sp)

/-- Lines 267-270 of `main`, then `main_launch`: the remaining options are parsed and a
failure status ends the program with exit status 1. -/
def main_options (P : Platform) (rest : List (Int × Option CStr)) (desc : session_desc) :
    Except Fault (Int × List Event) :=
  match parse_cli_args P rest desc with
  | .error f => .error f
  | .ok (result, desc, out) =>
    if FAILED result then .ok (1, out)
    else .ok ((main_launch P desc).1, out ++ (main_launch P desc).2)

/-- Source `main`, over the first result of `getopt_long` and the results that follow. -/
def main (P : Platform) (first : Int × Option CStr) (rest : List (Int × Option CStr)) :
    Except Fault (Int × List Event) :=
  let desc := session_create P
  if first.1 = 74 then
    match first.2 with
    | none => .error .null_pointer
    | some arg =>
      if strlen (arg ++ [0]) ≠ 38 ∨ (parse_guid P arg P.GUID_NULL).1 ≠ P.S_OK then
        .ok (1, [.printf
          "--join got invalid GUID. required format: \x7bxxxxxxxx-xxxx-xxxx-xxxx-xxxxxxxxxxxx\x7d\n"])
      else
        main_options P rest
          { desc with is_host := false, session_id := (parse_guid P arg P.GUID_NULL).2 }
  else if first.1 = 72 then
    match first.2 with
    | some arg =>
      if (parse_guid P arg desc.session_id).1 ≠ P.S_OK then
        .ok (1, [.printf
          "--host got invalid GUID. required format: \x7bxxxxxxxx-xxxx-xxxx-xxxx-xxxxxxxxxxxx\x7d\n"])
      else
        main_options P rest
          { desc with is_host := true, session_id := (parse_guid P arg desc.session_id).2 }
    | none => main_options P rest { desc with is_host := true, session_id := P.CoCreateGuid }
  else if first.1 = 104 then .ok (0, [.printf help_text])
  else .ok (1, [.printf "must provide --join or --host as the first argument\n"])

/-! ## Vocabulary of the statements -/

/-- The number a string of decimal digits denotes. -/
def decimal_value (ds : List Nat) : Nat := ds.foldl (fun acc d => acc * 10 + (d - 48)) 0

/-- Events that neither release the message nor call the runtime. -/
def Event.passive : Event → Bool
  | .printf _ => true
  | .message_read => true
  | _ => false

/-- Calls to the provider registry and to the session runtime. -/
def Event.is_runtime_call : Event → Bool
  | .dpsp_register => true
  | .dpsp_unregister => true
  | .session_launch _ => true
  | .session_process_messages _ => true
  | .SendLobbyMessage _ _ _ _ => true
  | _ => false

/-- The `dwType` field of a system message: the `DWORD` at the start of its data. -/
def system_type (message : dplobbymsg) : Nat := dword_of_bytes (message.data.take 4)

/-- Messages the session runtime delivers: a standard message, or a system message
whose data holds the `dwType` field and, for a property query, the whole 40-byte
`DPLMSG_GETPROPERTY` structure. -/
def well_formed (P : Platform) (message : dplobbymsg) : Prop :=
  message.flags = P.DPLMSG_STANDARD ∨
    (4 ≤ message.data.length ∧
      (system_type message = P.DPLSYS_GETPROPERTY → 40 ≤ message.data.length))

/-- A property query: system message of type 7 with request id `0x12345678`, player id
bytes `0..15` and property tag bytes `100..115`. -/
def sample_get_property : dplobbymsg :=
  { flags := 1
    data := dword_bytes 7 ++ dword_bytes 305419896 ++ List.range 16
      ++ (List.range 16).map (· + 100) }

/-- A descriptor with player name, application id and service provider set. -/
def sample_desc : session_desc :=
  { is_host := true
    session_id := sample_guid 99
    application := sample_guid 50
    service_provider := sample_guid 25
    player_name := some (cstr "alice")
    address := [] }

/-! ## Lemmas on the string and memory primitives -/

theorem ok_bind {α β : Type} (a : α) (f : α → Except Fault β) :
    (Except.ok a >>= f) = f a := rfl

theorem c_str_append_zero (s rest : List Nat) (h : 0 ∉ s) : c_str (s ++ 0 :: rest) = s := by
  induction s with
  | nil => simp [c_str]
  | cons a s ih =>
    have ha : a ≠ 0 := fun e => h (by simp [e])
    have hs : 0 ∉ s := fun e => h (by simp [e])
    simp [c_str, ha, ih hs]

theorem strchr_append (key rest : List Nat) (c : Nat) (hc : c ∉ key) (h0 : 0 ∉ key) :
    strchr (key ++ c :: rest) c = some key.length := by
  induction key with
  | nil => simp [strchr]
  | cons a s ih =>
    have ha : a ≠ c := fun e => hc (by simp [e])
    have ha0 : a ≠ 0 := fun e => h0 (by simp [e])
    have hs : c ∉ s := fun e => hc (by simp [e])
    have hs0 : 0 ∉ s := fun e => h0 (by simp [e])
    simp [strchr, ha, ha0, ih hs hs0]

theorem strchr_none (s : List Nat) (c : Nat) (hc : c ∉ s) (hc0 : c ≠ 0) :
    strchr (s ++ [0]) c = none := by
  induction s with
  | nil => simp [strchr, hc0.symm]
  | cons a s ih =>
    have ha : a ≠ c := fun e => hc (by simp [e])
    have hs : c ∉ s := fun e => hc (by simp [e])
    by_cases ha0 : a = 0
    · simp [strchr, ha0, hc0.symm]
    · simp [strchr, ha, ha0, ih hs]

theorem load_append (key rest : List Nat) (i : Nat) :
    load (key ++ rest) (key.length + i) = load rest i := by
  unfold load
  rw [List.getElem?_append_right (by omega)]
  simp

theorem memcpy_key (key rest : List Nat) (hlen : key.length ≤ 55) :
    memcpy (calloc 60) (key ++ rest) key.length
      = .ok (key ++ 0 :: List.replicate (59 - key.length) 0) := by
  have h1 : (List.replicate 60 0).drop key.length = 0 :: List.replicate (59 - key.length) 0 := by
    rw [List.drop_replicate]
    have : 60 - key.length = (59 - key.length) + 1 := by omega
    rw [this, List.replicate_succ]
  unfold memcpy calloc
  rw [if_pos (by simp; omega), h1]
  simp

theorem store_key (key r : List Nat) :
    store (key ++ 0 :: r) key.length 0 = .ok (key ++ 0 :: r) := by
  unfold store
  rw [if_pos (by simp)]
  simp

theorem strlen_value (value : List Nat) (h0 : 0 ∉ value) :
    strlen (61 :: (value ++ [0])) = value.length + 1 := by
  simp [strlen, c_str, c_str_append_zero value [] h0]

theorem memcpy_value (value : List Nat) :
    memcpy (calloc (value.length + 1)) (value ++ [0]) (value.length + 1 - 1)
      = .ok (value ++ [0]) := by
  unfold memcpy calloc
  rw [if_pos (by simp)]
  simp [List.drop_replicate]

theorem address_payload_string (key value : List Nat) (h0 : 0 ∉ value)
    (hi : value.take 2 ≠ [105, 58]) :
    address_payload (key ++ 61 :: (value ++ [0])) key.length
      = .ok (value ++ [0], value.length + 1) := by
  have hd : (key ++ 61 :: (value ++ [0])).drop key.length = 61 :: (value ++ [0]) := by
    simp
  have hd1 : (key ++ 61 :: (value ++ [0])).drop (key.length + 1) = value ++ [0] := by
    simp
  have tail : (do
      let data ← memcpy (calloc (strlen (61 :: (value ++ [0])))) (value ++ [0])
        (strlen (61 :: (value ++ [0])) - 1)
      pure (data, strlen (61 :: (value ++ [0]))) : Except Fault (List Nat × Nat))
      = .ok (value ++ [0], value.length + 1) := by
    rw [strlen_value value h0, memcpy_value]
    rfl
  unfold address_payload
  rw [load_append, load_append, hd, hd1]
  match value, hi with
  | [], _ => simpa [load, ok_bind] using tail
  | [a], _ =>
    by_cases ha : a = 105
    · subst ha
      simpa [load, ok_bind] using tail
    · simpa [load, ok_bind, ha] using tail
  | a :: b :: rest, hi =>
    by_cases ha : a = 105
    · subst ha
      have hb : b ≠ 58 := fun e => hi (by simp [e])
      simpa [load, ok_bind, hb] using tail
    · simpa [load, ok_bind, ha] using tail

theorem memcpy_dword (n : Nat) : memcpy (calloc 4) (dword_bytes n) 4 = .ok (dword_bytes n) := by
  simp [memcpy, calloc, dword_bytes]

theorem address_payload_int (key D : List Nat) (h0 : 0 ∉ D) :
    address_payload (key ++ 61 :: (105 :: 58 :: D ++ [0])) key.length
      = .ok (dword_bytes (to_dword (atoi D)), 4) := by
  have hd3 : (key ++ 61 :: 105 :: 58 :: (D ++ [0])).drop (key.length + 3) = D ++ [0] := by
    simp
  unfold address_payload
  rw [load_append, load_append]
  simp only [List.cons_append]
  rw [hd3, c_str_append_zero D [] h0, memcpy_dword]
  simp [load, ok_bind]

theorem atoi_digits_eq (ds : List Nat) (hd : ∀ d ∈ ds, 48 ≤ d ∧ d ≤ 57) (acc : Nat) :
    atoi_digits ds (acc : Int) = ((ds.foldl (fun acc d => acc * 10 + (d - 48)) acc : Nat) : Int) := by
  induction ds generalizing acc with
  | nil => simp [atoi_digits]
  | cons d ds ih =>
    have h := hd d (by simp)
    have hds : ∀ x ∈ ds, 48 ≤ x ∧ x ≤ 57 := fun x hx => hd x (by simp [hx])
    have hcast : (acc : Int) * 10 + ((d : Int) - 48) = ((acc * 10 + (d - 48) : Nat) : Int) := by
      omega
    simp only [atoi_digits, isdigit, h.1, h.2, decide_True, Bool.and_self, if_true,
      List.foldl_cons]
    rw [hcast, ih hds]

theorem atoi_decimal (ds : List Nat) (hne : ds ≠ []) (hd : ∀ d ∈ ds, 48 ≤ d ∧ d ≤ 57) :
    atoi ds = (decimal_value ds : Int) := by
  match ds, hne with
  | d :: rest, _ =>
    have h := hd d (by simp)
    have hsp : isspace d = false := by
      simp [isspace]
      omega
    have h45 : d ≠ 45 := by omega
    have h43 : d ≠ 43 := by omega
    have := atoi_digits_eq (d :: rest) hd 0
    unfold atoi
    simp only [atoi_skip, hsp]
    split
    · rename_i heq; simp at heq; omega
    · rename_i heq; simp at heq; omega
    · simpa [decimal_value] using this

theorem to_dword_nat (n : Nat) (h : n < 4294967296) : to_dword (n : Int) = n := by
  unfold to_dword
  omega

theorem dword_roundtrip (n : Nat) (h : n < 4294967296) : dword_of_bytes (dword_bytes n) = n := by
  simp only [dword_bytes, dword_of_bytes]
  omega

/-! ## `parse_address_chunk` on a chunk `key=value` -/

theorem parse_address_chunk_long (P : Platform) (key value : CStr)
    (hk : 61 ∉ key) (hk0 : 0 ∉ key) (hlen : 55 < key.length) :
    parse_address_chunk P (key ++ 61 :: value) = .ok (P.DPERR_OUTOFMEMORY, none) := by
  unfold parse_address_chunk
  simp only [List.append_assoc, List.cons_append]
  rw [strchr_append key (value ++ [0]) 61 hk hk0]
  simp [hlen]

theorem parse_address_chunk_short (P : Platform) (key value : CStr)
    (hk : 61 ∉ key) (hk0 : 0 ∉ key) (hlen : key.length ≤ 55) (payload : List Nat × Nat)
    (hp : address_payload (key ++ 61 :: (value ++ [0])) key.length = .ok payload) :
    parse_address_chunk P (key ++ 61 :: value)
      = .ok (if SUCCEEDED (address_data_type P key).1 = true
          then (P.DP_OK, some
            { guidDataType := (address_data_type P key).2
              dwDataSize := payload.2
              lpData := payload.1 })
          else ((address_data_type P key).1, none)) := by
  unfold parse_address_chunk
  simp only [List.append_assoc, List.cons_append]
  rw [strchr_append key (value ++ [0]) 61 hk hk0]
  simp only [if_neg (Nat.not_lt.mpr hlen)]
  rw [memcpy_key key _ hlen, ok_bind, store_key, ok_bind, c_str_append_zero key _ hk0, hp,
    ok_bind]
  by_cases hs : SUCCEEDED (address_data_type P key).1 = true
  · simp only [hs, if_true]
    rfl
  · simp only [hs]
    rfl

/-! ## Claims on address chunks -/

/-- C2 (as the code behaves): the chunk `INet=b:DEADBEEF` is not hex-decoded.  The value
takes the string branch: the element holds the eleven bytes of the text `b:DEADBEEF` with
its terminator, not the four bytes `DE AD BE EF`. -/
theorem hex_value_kept_as_text :
    parse_address_chunk sample (cstr "INet=b:DEADBEEF")
      = .ok (0, some
          { guidDataType := sample.DPAID_INet
            dwDataSize := 11
            lpData := [98, 58, 68, 69, 65, 68, 66, 69, 69, 70, 0] }) := by
  rfl

/-- C3: for a chunk `key=value` whose key resolves (an alias, or text accepted by
`parse_guid`) and whose value begins with neither `i:` nor `b:`, `parse_address_chunk`
returns `DP_OK` with an element whose payload is the bytes of `value` followed by one
zero byte and whose recorded size is `length value + 1`.  `value` is everything after the
first `=` and may itself contain `=`; it may be empty. -/
theorem string_value_stored_with_terminator (P : Platform) (key value : CStr)
    (hk : 61 ∉ key) (hk0 : 0 ∉ key) (hv0 : 0 ∉ value) (hlen : key.length ≤ 55)
    (hvalid : SUCCEEDED (address_data_type P key).1 = true)
    (hi : value.take 2 ≠ cstr "i:") (_hb : value.take 2 ≠ cstr "b:") :
    ∃ el, parse_address_chunk P (key ++ 61 :: value) = .ok (P.DP_OK, some el)
      ∧ el.lpData = value ++ [0] ∧ el.dwDataSize = value.length + 1 := by
  have hi2 : value.take 2 ≠ [105, 58] := hi
  have hp := address_payload_string key value hv0 hi2
  refine ⟨⟨(address_data_type P key).2, value.length + 1, value ++ [0]⟩, ?_, rfl, rfl⟩
  rw [parse_address_chunk_short P key value hk hk0 hlen _ hp, if_pos hvalid]

/-- C4: for a chunk `key=i:D` whose key resolves and where `D` is a non-empty string of
decimal digits denoting `n < 2^31`, `parse_address_chunk` returns `DP_OK` with an element
typed by the resolved identifier whose payload is exactly four bytes, each below 256,
namely the little-endian bytes `n % 256`, `n / 2^8 % 256`, `n / 2^16 % 256`,
`n / 2^24 % 256`; they decode, little-endian and unsigned, to `n`. -/
theorem integer_value_stored_as_dword (P : Platform) (key D : CStr)
    (hk : 61 ∉ key) (hk0 : 0 ∉ key) (hlen : key.length ≤ 55)
    (hvalid : SUCCEEDED (address_data_type P key).1 = true)
    (hne : D ≠ []) (hd : ∀ d ∈ D, 48 ≤ d ∧ d ≤ 57) (hn : decimal_value D < 2 ^ 31) :
    ∃ el, parse_address_chunk P (key ++ 61 :: 105 :: 58 :: D) = .ok (P.DP_OK, some el)
      ∧ el.guidDataType = (address_data_type P key).2
      ∧ el.lpData = [decimal_value D % 256, decimal_value D / 256 % 256,
          decimal_value D / 65536 % 256, decimal_value D / 16777216 % 256]
      ∧ (∀ b ∈ el.lpData, b < 256)
      ∧ el.lpData.length = 4 ∧ el.dwDataSize = 4
      ∧ dword_of_bytes el.lpData = decimal_value D := by
  have h0 : 0 ∉ D := fun h => by have := hd 0 h; omega
  have hp := address_payload_int key D h0
  have hlt : decimal_value D < 4294967296 := by
    have : (2 : Nat) ^ 31 = 2147483648 := by norm_num
    omega
  have hnum : to_dword (atoi D) = decimal_value D := by
    rw [atoi_decimal D hne hd, to_dword_nat _ hlt]
  refine ⟨⟨(address_data_type P key).2, 4, dword_bytes (to_dword (atoi D))⟩,
    ?_, rfl, ?_, ?_, ?_, rfl, ?_⟩
  · rw [parse_address_chunk_short P key (105 :: 58 :: D) hk hk0 hlen _ hp, if_pos hvalid]
  · show dword_bytes (to_dword (atoi D)) = _
    rw [hnum]
    rfl
  · intro b hb
    have hb' : b ∈ dword_bytes (to_dword (atoi D)) := hb
    simp only [dword_bytes, List.mem_cons, List.mem_singleton, List.not_mem_nil, or_false] at hb'
    rcases hb' with h | h | h | h <;> omega
  · simp [dword_bytes]
  · show dword_of_bytes (dword_bytes (to_dword (atoi D))) = decimal_value D
    rw [hnum, dword_roundtrip _ hlt]

/-- C5: for a chunk whose key part (the bytes before the first `=`) is longer than 55
bytes, `parse_address_chunk` returns `DPERR_OUTOFMEMORY` and writes no element; for a key
part of at most 55 bytes the outcome is that of resolving the whole key: `DP_OK` with an
element typed by the resolved identifier, or the failure status of the key resolution. -/
theorem key_length_check (P : Platform) (key value : CStr)
    (hk : 61 ∉ key) (hk0 : 0 ∉ key) (hv0 : 0 ∉ value) :
    (55 < key.length →
      parse_address_chunk P (key ++ 61 :: value) = .ok (P.DPERR_OUTOFMEMORY, none))
    ∧ (key.length ≤ 55 → ∃ data size,
      parse_address_chunk P (key ++ 61 :: value)
        = .ok (if SUCCEEDED (address_data_type P key).1 = true
            then (P.DP_OK, some
              { guidDataType := (address_data_type P key).2
                dwDataSize := size
                lpData := data })
            else ((address_data_type P key).1, none))) := by
  refine ⟨parse_address_chunk_long P key value hk hk0, fun hlen => ?_⟩
  by_cases hi : value.take 2 = [105, 58]
  · obtain ⟨D, rfl⟩ : ∃ D, value = 105 :: 58 :: D := by
      match value, hi with
      | a :: b :: D, hi =>
        simp at hi
        exact ⟨D, by rw [hi.1, hi.2]⟩
    have h0 : 0 ∉ D := fun h => hv0 (by simp [h])
    exact ⟨_, _, parse_address_chunk_short P key _ hk hk0 hlen _ (address_payload_int key D h0)⟩
  · exact ⟨_, _, parse_address_chunk_short P key _ hk hk0 hlen _
      (address_payload_string key value hv0 hi)⟩

/-- C10 (as the code behaves): a chunk with no `=`, here `INet`, is not rejected with an
error.  `strchr` returns the null pointer and the function goes on to subtract, copy and
index relative to it, which is undefined behaviour. -/
theorem chunk_without_separator (P : Platform) :
    parse_address_chunk P (cstr "INet") = .error .null_pointer := by
  rfl

/-! ## Lemmas on the dispatcher -/

theorem Exec.bind_apply {α β : Type} (x : Exec α) (f : α → Exec β) (s : Run) :
    (x >>= f) s = match x s with
      | .ok (a, s') => f a s'
      | .error e => .error e := rfl

theorem emit_apply (e : Event) (freed : Bool) (trace : List Event) :
    emit e { freed := freed, trace := trace } = .ok ((), { freed := freed, trace := trace ++ [e] }) :=
  rfl

theorem deref_live {α : Type} (a : α) (trace : List Event) :
    deref (.ok a) { freed := false, trace := trace }
      = .ok (a, { freed := false, trace := trace ++ [.message_read] }) := rfl

/-- A read through `message` after its release is a fault in the model. -/
theorem deref_freed {α : Type} (x : Except Fault α) (trace : List Event) :
    deref x { freed := true, trace := trace } = .error .use_after_free := rfl

/-- A second release is a fault in the model. -/
theorem free_freed (trace : List Event) :
    dplobbymsg_free { freed := true, trace := trace } = .error .double_free := rfl

theorem free_live (trace : List Event) :
    dplobbymsg_free { freed := false, trace := trace }
      = .ok ((), { freed := true, trace := trace ++ [.dplobbymsg_free] }) := rfl

theorem load_ok (mem : List Nat) (i : Nat) (h : i < mem.length) : load mem i = .ok mem[i] := by
  simp [load, List.getElem?_eq_getElem h]

theorem hex_dump_run (message : dplobbymsg) (is : List Nat)
    (his : ∀ i ∈ is, i < message.data.length) (trace : List Event) :
    ∃ t, hex_dump message is { freed := false, trace := trace }
        = .ok ((), { freed := false, trace := trace ++ t })
      ∧ ∀ e ∈ t, e.passive = true := by
  induction is generalizing trace with
  | nil => exact ⟨[], by simp only [hex_dump, List.append_nil]; rfl, by simp⟩
  | cons i is ih =>
    have hi := his i (by simp)
    obtain ⟨t, ht, hp⟩ := ih (fun j hj => his j (by simp [hj]))
      (trace ++ [.message_read] ++ [.printf "%02X"])
    refine ⟨[.message_read, .printf "%02X"] ++ t, ?_, ?_⟩
    · simp only [hex_dump, Exec.bind_apply, load_ok _ _ hi, deref_live, emit_apply, ht]
      simp
    · intro e he
      simp only [List.mem_append, List.mem_cons, List.mem_singleton] at he
      rcases he with (rfl | rfl | h) | h
      · rfl
      · rfl
      · simp at h
      · exact hp e h

theorem load_bytes_ok (mem : List Nat) (off n : Nat) (h : off + n ≤ mem.length) :
    load_bytes mem off n = .ok ((mem.drop off).take n) := by
  simp [load_bytes, h]

theorem load_dword_ok (mem : List Nat) (off : Nat) (h : off + 4 ≤ mem.length) :
    load_dword mem off = .ok (dword_of_bytes ((mem.drop off).take 4)) := by
  simp [load_dword, load_bytes_ok mem off 4 h]

/-- The request-dependent part of the trace of the `DPLSYS_GETPROPERTY` case. -/
theorem onmessage_get_property_run (P : Platform) (app_id : Nat) (message : dplobbymsg)
    (h : 40 ≤ message.data.length) (trace : List Event) :
    onmessage_get_property P app_id message { freed := false, trace := trace }
      = .ok ((), { freed := false, trace := trace ++
          [.message_read, .message_read, .message_read,
           .SendLobbyMessage 0 app_id
            (DPLMSG_GETPROPERTYRESPONSE.image
              { dwType := P.DPLSYS_GETPROPERTYRESPONSE
                dwRequestID := dword_of_bytes ((message.data.drop 4).take 4)
                guidPlayer := (message.data.drop 8).take 16
                guidPropertyTag := (message.data.drop 24).take 16
                hr := P.DPERR_UNKNOWNMESSAGE
                dwDataSize := 0
                dwPropertyData0 := 0 })
            P.sizeof_pointer] }) := by
  simp only [onmessage_get_property, Exec.bind_apply, load_dword_ok message.data 4 (by omega),
    load_bytes_ok message.data 8 16 (by omega), load_bytes_ok message.data 24 16 (by omega), deref_live, emit_apply]
  simp

theorem onmessage_switch_run (P : Platform) (app_id : Nat) (message : dplobbymsg)
    (h4 : 4 ≤ message.data.length)
    (h40 : system_type message = P.DPLSYS_GETPROPERTY → 40 ≤ message.data.length)
    (trace : List Event) :
    ∃ body, onmessage_switch P app_id message (system_type message)
        { freed := false, trace := trace }
        = .ok ((), { freed := false, trace := trace ++ body })
      ∧ (∀ e ∈ body, e.passive = true ∨ e.is_send = true)
      ∧ (system_type message ≠ P.DPLSYS_GETPROPERTY → ∀ e ∈ body, e.passive = true) := by
  unfold onmessage_switch
  split
  · exact ⟨_, emit_apply _ _ _, by simp [Event.passive], by simp [Event.passive]⟩
  split
  · exact ⟨_, emit_apply _ _ _, by simp [Event.passive], by simp [Event.passive]⟩
  split
  · exact ⟨_, emit_apply _ _ _, by simp [Event.passive], by simp [Event.passive]⟩
  split
  · exact ⟨_, emit_apply _ _ _, by simp [Event.passive], by simp [Event.passive]⟩
  split
  · rename_i hgp
    exact ⟨_, onmessage_get_property_run P app_id message (h40 hgp) trace,
      by simp [Event.passive, Event.is_send], fun hne => absurd hgp hne⟩
  · have hty : load_dword message.data 0 = .ok (system_type message) := by
      rw [load_dword_ok message.data 0 (by omega)]
      simp [system_type]
    refine ⟨[.message_read, .printf "received unknown message: %ld\n"], ?_, ?_, ?_⟩
    · simp only [Exec.bind_apply, hty, deref_live, emit_apply]
      simp
    · simp [Event.passive]
    · simp [Event.passive]

theorem onmessage_run (P : Platform) (app_id : Nat) (message : dplobbymsg)
    (hwf : well_formed P message) :
    ∃ pre, onmessage P app_id message Run.entry
        = .ok (decide (message.flags = P.DPLMSG_STANDARD
                ∨ system_type message ≠ P.DPLSYS_APPTERMINATED),
            { freed := true, trace := pre ++ [.dplobbymsg_free] })
      ∧ (∀ e ∈ pre, e.passive = true ∨ e.is_send = true)
      ∧ (message.flags = P.DPLMSG_STANDARD ∨ system_type message ≠ P.DPLSYS_GETPROPERTY →
          ∀ e ∈ pre, e.passive = true) := by
  obtain ⟨t, ht, hp⟩ := hex_dump_run message (List.range message.data.length)
    (fun i hi => List.mem_range.mp hi)
    ([] ++ [.message_read] ++ [.printf "Receiving message... %ld\n"])
  have hpre : ∀ e ∈ ([] ++ [Event.message_read] ++ [Event.printf "Receiving message... %ld\n"]
      ++ t ++ [Event.printf "\n"] ++ [Event.message_read] : List Event), e.passive = true := by
    intro e he
    simp only [List.mem_append, List.mem_singleton, List.not_mem_nil, false_or] at he
    rcases he with (((rfl | rfl) | h) | rfl) | rfl
    · rfl
    · rfl
    · exact hp e h
    · rfl
    · rfl
  generalize hq : ([] ++ [Event.message_read] ++ [Event.printf "Receiving message... %ld\n"]
      ++ t ++ [Event.printf "\n"] ++ [Event.message_read] : List Event) = q at hpre
  unfold onmessage
  simp only [Exec.bind_apply, deref_live, emit_apply, Run.entry, ht, hq]
  by_cases hstd : message.flags = P.DPLMSG_STANDARD
  · refine ⟨q, ?_, fun e he => Or.inl (hpre e he), fun _ e he => hpre e he⟩
    simp only [hstd, if_true, Exec.bind_apply, free_live]
    simp
    rfl
  · rcases hwf with hwf | ⟨h4, h40⟩
    · exact absurd hwf hstd
    have hty : load_dword message.data 0 = .ok (system_type message) := by
      rw [load_dword_ok message.data 0 (by omega)]
      simp [system_type]
    simp only [hstd, if_false, Exec.bind_apply, hty, deref_live]
    have hq1 : ∀ e ∈ q ++ [Event.message_read], e.passive = true := by
      intro e he
      rcases List.mem_append.mp he with h | h
      · exact hpre e h
      · rw [List.mem_singleton.mp h]; rfl
    by_cases hterm : system_type message = P.DPLSYS_APPTERMINATED
    · have hq2 : ∀ e ∈ q ++ [Event.message_read]
          ++ [Event.printf "received APPTERMINATED message\n"], e.passive = true := by
        intro e he
        rcases List.mem_append.mp he with h | h
        · exact hq1 e h
        · rw [List.mem_singleton.mp h]; rfl
      refine ⟨q ++ [.message_read] ++ [.printf "received APPTERMINATED message\n"], ?_,
        fun e he => Or.inl (hq2 e he), fun _ e he => hq2 e he⟩
      simp only [hterm, if_true, Exec.bind_apply, emit_apply, free_live]
      simp [hstd]
      rfl
    · obtain ⟨body, hb, hb1, hb2⟩ := onmessage_switch_run P app_id message h4 h40
        (q ++ [.message_read])
      refine ⟨q ++ [.message_read] ++ body, ?_, ?_, ?_⟩
      · simp only [hterm, if_false, Exec.bind_apply, hb, free_live]
        simp [hstd, hterm]
        rfl
      · intro e he
        rcases List.mem_append.mp he with h | h
        · exact Or.inl (hq1 e h)
        · exact hb1 e h
      · intro hng e he
        have hne : system_type message ≠ P.DPLSYS_GETPROPERTY := by
          rcases hng with h' | h'
          · exact False.elim h'
          · exact h'
        rcases List.mem_append.mp he with h | h
        · exact hq1 e h
        · exact hb2 hne e h

/-! ## Claims on the dispatcher -/

/-- C1 (as the code behaves): on the property query `sample_get_property` (request id
`0x12345678`) the dispatcher makes one `SendLobbyMessage` call and returns `true`.  The
52-byte buffer holds the whole response, but the length passed is `sizeof` of the pointer,
so the payload handed over is the four bytes of `dwType` alone: request id, player id,
property tag, result code and data length are not part of it. -/
theorem get_property_reply_cut_to_pointer_size :
    (match onmessage sample 5 sample_get_property Run.entry with
      | .ok (go_on, run) => some (go_on, run.trace.filter Event.is_send, sent run.trace)
      | .error _ => none)
      = some (true,
          [.SendLobbyMessage 0 5
            [8, 0, 0, 0, 120, 86, 52, 18,
             0, 1, 2, 3, 4, 5, 6, 7, 8, 9, 10, 11, 12, 13, 14, 15,
             100, 101, 102, 103, 104, 105, 106, 107, 108, 109, 110, 111, 112, 113, 114, 115,
             114, 1, 119, 136, 0, 0, 0, 0, 0, 0, 0, 0]
            4],
          [[8, 0, 0, 0]]) := by
  decide!

/-- C6: for a message that is not a property query (a standard message, or a system
message whose `dwType` is not `DPLSYS_GETPROPERTY`), `onmessage` returns, makes no
`SendLobbyMessage` call, and returns `false` (stop) exactly when the message is a system
message of type `DPLSYS_APPTERMINATED`. -/
theorem no_reply_unless_get_property (P : Platform) (app_id : Nat) (message : dplobbymsg)
    (hwf : message.flags = P.DPLMSG_STANDARD ∨ 4 ≤ message.data.length)
    (hng : message.flags = P.DPLMSG_STANDARD ∨ system_type message ≠ P.DPLSYS_GETPROPERTY) :
    ∃ go_on run, onmessage P app_id message Run.entry = .ok (go_on, run)
      ∧ (∀ e ∈ run.trace, e.is_send = false)
      ∧ (go_on = false ↔
          message.flags ≠ P.DPLMSG_STANDARD ∧ system_type message = P.DPLSYS_APPTERMINATED) := by
  have hwf' : well_formed P message := by
    rcases hwf with h | h
    · exact Or.inl h
    · rcases hng with h' | h'
      · exact Or.inl h'
      · exact Or.inr ⟨h, fun hgp => absurd hgp h'⟩
  obtain ⟨pre, hrun, _, hquiet⟩ := onmessage_run P app_id message hwf'
  refine ⟨_, _, hrun, ?_, ?_⟩
  · intro e he
    rcases List.mem_append.mp he with h | h
    · have := hquiet hng e h
      cases e <;> simp_all [Event.passive, Event.is_send]
    · rw [List.mem_singleton.mp h]; rfl
  · simp only [decide_eq_false_iff_not, not_or, not_not, ne_eq]

/-- C7: for every message the runtime delivers (standard, or system of any sub-type,
known or not), one call of `onmessage` returns without fault and leaves the message
released; its trace holds exactly one `dplobbymsg_free`, and that is its last action, so
every read through `message` comes before the release. -/
theorem message_released_exactly_once (P : Platform) (app_id : Nat) (message : dplobbymsg)
    (hwf : well_formed P message) :
    ∃ go_on pre, onmessage P app_id message Run.entry
        = .ok (go_on, { freed := true, trace := pre ++ [.dplobbymsg_free] })
      ∧ Event.dplobbymsg_free ∉ pre := by
  obtain ⟨pre, hrun, hkind, _⟩ := onmessage_run P app_id message hwf
  refine ⟨_, pre, hrun, ?_⟩
  intro hmem
  rcases hkind _ hmem with h | h <;> simp [Event.passive, Event.is_send] at h

/-! ## Claims on option parsing and `main` -/

/-- C8 (as the code behaves): `--application bogus` followed by `--player alice`.  The
text fails identifier parsing, yet `parse_cli_args` goes on to the next option (the player
name is set) and returns `DP_OK`.  The same holds for `--service-provider bogus`, which
also appends a service-provider element to the address. -/
theorem invalid_application_id_not_reported :
    FAILED (parse_guid sample (cstr "bogus") sample.GUID_NULL).1 = true
      ∧ parse_cli_args sample [(65, some (cstr "bogus")), (112, some (cstr "alice"))]
          (session_create sample)
        = .ok (sample.DP_OK,
            { session_create sample with player_name := some (cstr "alice") }, [])
      ∧ parse_cli_args sample [(115, some (cstr "bogus")), (112, some (cstr "alice"))]
          (session_create sample)
        = .ok (sample.DP_OK,
            { session_create sample with
              player_name := some (cstr "alice")
              address := [{ guidDataType := sample.DPAID_ServiceProvider
                            dwDataSize := 16
                            lpData := sample.GUID_NULL }] }, []) := by
  exact ⟨by rfl, by rfl, by rfl⟩

/-- C9: at the pre-launch check of `main`, a descriptor with no player name, or a null
application id, or a null service-provider id makes `main` return 1 without any call to
the provider registry or the session runtime; a descriptor with all three passes the
check: `session_launch` is called on it, unless the provider of the tool has to be
registered first and `dpsp_register` itself fails. -/
theorem prelaunch_check (P : Platform) (desc : session_desc) :
    ((desc.player_name = none ∨ desc.application = P.GUID_NULL
        ∨ desc.service_provider = P.GUID_NULL) →
      (main_launch P desc).1 = 1 ∧ ∀ e ∈ (main_launch P desc).2, e.is_runtime_call = false)
    ∧ ((desc.player_name ≠ none ∧ desc.application ≠ P.GUID_NULL
        ∧ desc.service_provider ≠ P.GUID_NULL) →
      if desc.service_provider = P.DPSPGUID_DPRUN ∧ FAILED P.dpsp_register = true
      then Event.dpsp_register ∈ (main_launch P desc).2
      else Event.session_launch desc ∈ (main_launch P desc).2) := by
  constructor
  · intro h
    unfold main_launch
    by_cases h1 : desc.player_name = none
    · simp [h1, Event.is_runtime_call]
    by_cases h2 : desc.application = P.GUID_NULL
    · simp [h1, h2, Event.is_runtime_call]
    by_cases h3 : desc.service_provider = P.GUID_NULL
    · simp [h1, h2, h3, Event.is_runtime_call]
    · rcases h with h | h | h <;> contradiction
  · rintro ⟨h1, h2, h3⟩
    unfold main_launch
    simp only [h1, h2, h3, if_false, decide_eq_true_eq]
    by_cases hreg : desc.service_provider = P.DPSPGUID_DPRUN ∧ FAILED P.dpsp_register = true
    · simp [hreg]
    · simp only [hreg, if_false]
      split <;> simp

/-- The `A` case of `parse_cli_args` drops the status of `parse_guid`: whatever the text,
the next option is processed. -/
theorem parse_cli_args_application (P : Platform) (text : CStr)
    (rest : List (Int × Option CStr)) (desc : session_desc) :
    parse_cli_args P ((65, some text) :: rest) desc
      = parse_cli_args P rest
          { desc with application := (parse_guid P text desc.application).2 } := by
  simp [parse_cli_args]

/-! ## Further facts on the same functions -/

/-- Each well-known alias resolves to its identifier with status `DP_OK`. -/
theorem address_data_type_alias (P : Platform) :
    address_data_type P (cstr "TotalSize") = (P.DP_OK, P.DPAID_TotalSize)
    ∧ address_data_type P (cstr "ServiceProvider") = (P.DP_OK, P.DPAID_ServiceProvider)
    ∧ address_data_type P (cstr "LobbyProvider") = (P.DP_OK, P.DPAID_LobbyProvider)
    ∧ address_data_type P (cstr "Phone") = (P.DP_OK, P.DPAID_Phone)
    ∧ address_data_type P (cstr "PhoneW") = (P.DP_OK, P.DPAID_PhoneW)
    ∧ address_data_type P (cstr "Modem") = (P.DP_OK, P.DPAID_Modem)
    ∧ address_data_type P (cstr "ModemW") = (P.DP_OK, P.DPAID_ModemW)
    ∧ address_data_type P (cstr "INet") = (P.DP_OK, P.DPAID_INet)
    ∧ address_data_type P (cstr "INetW") = (P.DP_OK, P.DPAID_INetW)
    ∧ address_data_type P (cstr "INetPort") = (P.DP_OK, P.DPAID_INetPort)
    ∧ address_data_type P (cstr "ComPort") = (P.DP_OK, P.DPAID_ComPort) :=
  ⟨rfl, rfl, rfl, rfl, rfl, rfl, rfl, rfl, rfl, rfl, rfl⟩

/-- Without a separator the result of `strchr` is the null pointer, whatever the chunk. -/
theorem parse_address_chunk_no_separator (P : Platform) (input : CStr) (h : 61 ∉ input) :
    parse_address_chunk P input = .error .null_pointer := by
  unfold parse_address_chunk
  simp only [strchr_none input 61 h (by decide)]

/-- With a separator the function returns: no access leaves its buffer. -/
theorem parse_address_chunk_with_separator (P : Platform) (key value : CStr)
    (hk : 61 ∉ key) (hk0 : 0 ∉ key) (hv0 : 0 ∉ value) :
    ∃ r, parse_address_chunk P (key ++ 61 :: value) = .ok r := by
  by_cases hlen : 55 < key.length
  · exact ⟨_, parse_address_chunk_long P key value hk hk0 hlen⟩
  · have hlen' : key.length ≤ 55 := Nat.le_of_not_lt hlen
    by_cases hi : value.take 2 = [105, 58]
    · obtain ⟨D, rfl⟩ : ∃ D, value = 105 :: 58 :: D := by
        match value, hi with
        | a :: b :: D, hi =>
          simp at hi
          exact ⟨D, by rw [hi.1, hi.2]⟩
      have h0 : 0 ∉ D := fun h => hv0 (by simp [h])
      exact ⟨_, parse_address_chunk_short P key _ hk hk0 hlen' _ (address_payload_int key D h0)⟩
    · exact ⟨_, parse_address_chunk_short P key _ hk hk0 hlen' _
        (address_payload_string key value hv0 hi)⟩

/-- The `s` case of `parse_cli_args` drops the status of `parse_guid` as well. -/
theorem parse_cli_args_service_provider (P : Platform) (text : CStr)
    (rest : List (Int × Option CStr)) (desc : session_desc) :
    parse_cli_args P ((115, some text) :: rest) desc
      = parse_cli_args P rest
          (dpaddress_create_element
            { desc with service_provider := service_provider_of P text desc.service_provider }
            P.DPAID_ServiceProvider (service_provider_of P text desc.service_provider) 16) := by
  simp [parse_cli_args]

/-- The `a` case of `parse_cli_args` does stop on a failure status of the chunk. -/
theorem parse_cli_args_address_failure (P : Platform) (chunk : CStr)
    (rest : List (Int × Option CStr)) (desc : session_desc) (result : HRESULT)
    (el : Option DPCOMPOUNDADDRESSELEMENT)
    (hchunk : parse_address_chunk P chunk = .ok (result, el)) (hfail : FAILED result = true) :
    parse_cli_args P ((97, some chunk) :: rest) desc
      = .ok (result, desc, [.printf "Could not parse address chunk \x27%s\x27: %s\n"]) := by
  simp [parse_cli_args, hchunk, hfail]

theorem sent_passive (l : List Event) (h : ∀ e ∈ l, e.passive = true) : sent l = [] := by
  induction l with
  | nil => rfl
  | cons e l ih =>
    have he := h e (by simp)
    have hl := ih (fun x hx => h x (by simp [hx]))
    cases e <;> simp_all [sent, Event.passive, Event.payload]

theorem sent_append (l₁ l₂ : List Event) : sent (l₁ ++ l₂) = sent l₁ ++ sent l₂ := by
  simp [sent]

/-- On every platform, the one payload sent for a property query is the response image cut
to the size of a pointer. -/
theorem onmessage_get_property_payload (P : Platform) (app_id : Nat) (message : dplobbymsg)
    (hsys : message.flags ≠ P.DPLMSG_STANDARD)
    (hty : system_type message = P.DPLSYS_GETPROPERTY)
    (hlen : 40 ≤ message.data.length)
    (h1 : P.DPLSYS_GETPROPERTY ≠ P.DPLSYS_APPTERMINATED)
    (h2 : P.DPLSYS_GETPROPERTY ≠ P.DPLSYS_NEWSESSIONHOST)
    (h3 : P.DPLSYS_GETPROPERTY ≠ P.DPLSYS_CONNECTIONSETTINGSREAD)
    (h4 : P.DPLSYS_GETPROPERTY ≠ P.DPLSYS_DPLAYCONNECTFAILED)
    (h5 : P.DPLSYS_GETPROPERTY ≠ P.DPLSYS_DPLAYCONNECTSUCCEEDED) :
    ∃ run, onmessage P app_id message Run.entry = .ok (true, run)
      ∧ sent run.trace =
        [(DPLMSG_GETPROPERTYRESPONSE.image
            { dwType := P.DPLSYS_GETPROPERTYRESPONSE
              dwRequestID := dword_of_bytes ((message.data.drop 4).take 4)
              guidPlayer := (message.data.drop 8).take 16
              guidPropertyTag := (message.data.drop 24).take 16
              hr := P.DPERR_UNKNOWNMESSAGE
              dwDataSize := 0
              dwPropertyData0 := 0 }).take P.sizeof_pointer] := by
  obtain ⟨t, ht, hp⟩ := hex_dump_run message (List.range message.data.length)
    (fun i hi => List.mem_range.mp hi)
    ([] ++ [.message_read] ++ [.printf "Receiving message... %ld\n"])
  have hpre : ∀ e ∈ ([] ++ [Event.message_read] ++ [Event.printf "Receiving message... %ld\n"]
      ++ t ++ [Event.printf "\n"] ++ [Event.message_read] ++ [Event.message_read]
      : List Event), e.passive = true := by
    intro e he
    simp only [List.mem_append, List.mem_singleton, List.not_mem_nil, false_or] at he
    rcases he with ((((rfl | rfl) | h) | rfl) | rfl) | rfl
    · rfl
    · rfl
    · exact hp e h
    · rfl
    · rfl
    · rfl
  have hdw : load_dword message.data 0 = .ok P.DPLSYS_GETPROPERTY := by
    rw [load_dword_ok message.data 0 (by omega), ← hty]
    simp [system_type]
  refine ⟨{ freed := true,
            trace := [] ++ [Event.message_read] ++ [Event.printf "Receiving message... %ld\n"]
              ++ t ++ [Event.printf "\n"] ++ [Event.message_read] ++ [Event.message_read]
              ++ [.message_read, .message_read, .message_read,
                  .SendLobbyMessage 0 app_id
                    (DPLMSG_GETPROPERTYRESPONSE.image
                      { dwType := P.DPLSYS_GETPROPERTYRESPONSE
                        dwRequestID := dword_of_bytes ((message.data.drop 4).take 4)
                        guidPlayer := (message.data.drop 8).take 16
                        guidPropertyTag := (message.data.drop 24).take 16
                        hr := P.DPERR_UNKNOWNMESSAGE
                        dwDataSize := 0
                        dwPropertyData0 := 0 })
                    P.sizeof_pointer]
              ++ [.dplobbymsg_free] }, ?_, ?_⟩
  · unfold onmessage
    simp only [Exec.bind_apply, deref_live, emit_apply, Run.entry, ht, hsys, if_false, hdw, h1]
    unfold onmessage_switch
    simp only [h2, h3, h4, h5, if_false, if_true, Exec.bind_apply,
      onmessage_get_property_run P app_id message hlen, free_live]
    rfl
  · simp only [sent_append, sent_passive _ hpre]
    simp [sent, Event.payload]

/-! ## The statements at concrete inputs -/

/-- C3 at `INet=127.0.0.1` on the sample platform: ten bytes, the text and a zero. -/
theorem string_value_stored_with_terminator_witness :
    (61 ∉ cstr "INet" ∧ 0 ∉ cstr "INet" ∧ 0 ∉ cstr "127.0.0.1" ∧ (cstr "INet").length ≤ 55
      ∧ SUCCEEDED (address_data_type sample (cstr "INet")).1 = true
      ∧ (cstr "127.0.0.1").take 2 ≠ cstr "i:" ∧ (cstr "127.0.0.1").take 2 ≠ cstr "b:")
    ∧ ∃ el, parse_address_chunk sample (cstr "INet" ++ 61 :: cstr "127.0.0.1")
          = .ok (sample.DP_OK, some el)
        ∧ el.lpData = cstr "127.0.0.1" ++ [0] ∧ el.dwDataSize = (cstr "127.0.0.1").length + 1 :=
  ⟨⟨by decide, by decide, by decide, by decide, by decide, by decide, by decide⟩,
    string_value_stored_with_terminator sample (cstr "INet") (cstr "127.0.0.1")
      (by decide) (by decide) (by decide) (by decide) (by decide) (by decide) (by decide)⟩

/-- C4 at `INet=i:8000` on the sample platform: the payload is `40 1F 00 00`. -/
theorem integer_value_stored_as_dword_witness :
    (61 ∉ cstr "INet" ∧ 0 ∉ cstr "INet" ∧ (cstr "INet").length ≤ 55
      ∧ SUCCEEDED (address_data_type sample (cstr "INet")).1 = true
      ∧ cstr "8000" ≠ [] ∧ (∀ d ∈ cstr "8000", 48 ≤ d ∧ d ≤ 57)
      ∧ decimal_value (cstr "8000") < 2 ^ 31)
    ∧ decimal_value (cstr "8000") = 8000
    ∧ ∃ el, parse_address_chunk sample (cstr "INet" ++ 61 :: 105 :: 58 :: cstr "8000")
          = .ok (sample.DP_OK, some el)
        ∧ el.guidDataType = sample.DPAID_INet
        ∧ el.lpData = [64, 31, 0, 0]
        ∧ (∀ b ∈ el.lpData, b < 256)
        ∧ el.lpData.length = 4 ∧ el.dwDataSize = 4
        ∧ dword_of_bytes el.lpData = 8000 :=
  ⟨⟨by decide, by decide, by decide, by decide, by decide, by decide, by decide⟩,
    by decide,
    integer_value_stored_as_dword sample (cstr "INet") (cstr "8000")
      (by decide) (by decide) (by decide) (by decide) (by decide) (by decide) (by decide)⟩

/-- C5 at a key of 56 letters `A`, rejected, and at the key `INet`, resolved. -/
theorem key_length_check_witness :
    parse_address_chunk sample (List.replicate 56 65 ++ 61 :: cstr "x")
        = .ok (sample.DPERR_OUTOFMEMORY, none)
    ∧ ∃ data size, parse_address_chunk sample (cstr "INet" ++ 61 :: cstr "x")
        = .ok (if SUCCEEDED (address_data_type sample (cstr "INet")).1 = true
            then (sample.DP_OK, some
              { guidDataType := (address_data_type sample (cstr "INet")).2
                dwDataSize := size
                lpData := data })
            else ((address_data_type sample (cstr "INet")).1, none)) :=
  ⟨(key_length_check sample (List.replicate 56 65) (cstr "x")
      (by decide) (by decide) (by decide)).1 (by decide),
    (key_length_check sample (cstr "INet") (cstr "x")
      (by decide) (by decide) (by decide)).2 (by decide)⟩

/-- C6 at a system message of type `DPLSYS_APPTERMINATED` on the sample platform. -/
theorem no_reply_unless_get_property_witness :
    ∃ go_on run, onmessage sample 5 { flags := 1, data := [4, 0, 0, 0] } Run.entry
        = .ok (go_on, run)
      ∧ (∀ e ∈ run.trace, e.is_send = false)
      ∧ (go_on = false ↔
          (1 : Nat) ≠ sample.DPLMSG_STANDARD
            ∧ system_type { flags := 1, data := [4, 0, 0, 0] } = sample.DPLSYS_APPTERMINATED) :=
  no_reply_unless_get_property sample 5 { flags := 1, data := [4, 0, 0, 0] }
    (Or.inr (by decide)) (Or.inr (by decide))

/-- C7 at the property query `sample_get_property` on the sample platform. -/
theorem message_released_exactly_once_witness :
    ∃ go_on pre, onmessage sample 5 sample_get_property Run.entry
        = .ok (go_on, { freed := true, trace := pre ++ [.dplobbymsg_free] })
      ∧ Event.dplobbymsg_free ∉ pre :=
  message_released_exactly_once sample 5 sample_get_property
    (Or.inr ⟨by decide, fun _ => by decide⟩)

/-- C9 at the default descriptor (nothing set) and at `sample_desc` (all three set). -/
theorem prelaunch_check_witness :
    ((main_launch sample (session_create sample)).1 = 1
      ∧ ∀ e ∈ (main_launch sample (session_create sample)).2, e.is_runtime_call = false)
    ∧ Event.session_launch sample_desc ∈ (main_launch sample sample_desc).2 :=
  ⟨(prelaunch_check sample (session_create sample)).1 (Or.inl rfl),
    (if_neg (by decide :
        ¬(sample_desc.service_provider = sample.DPSPGUID_DPRUN
          ∧ FAILED sample.dpsp_register = true))).mp
      ((prelaunch_check sample sample_desc).2 ⟨by decide, by decide, by decide⟩)⟩

end Dprun
